import Mathlib

/-!
Shallow embedding of the web-analytics-tracker ingestion and reporting engine.

Sources embedded:
- `parseUserAgent` and `trackEvent` (src/unnamed/part_002),
- `endPageView` (src/unnamed/part_004),
- `getAnalyticsSummary` (src/server/src/handlers/get_analytics_summary.ts),
over the relational schema of src/server/src/db/schema.ts.

Modelling conventions:
- The database is an explicit state: lists of rows for the three tables.
  Row ids are opaque strings; generated uuids enter as explicit parameters.
- Timestamps are integers (milliseconds since epoch, as `Date.getTime()`).
- The `numeric(10,2)` columns (`page_views_per_session`,
  `average_session_duration`) are stored as integer hundredths ("cents"):
  the source writes them with `.toFixed(2)` or through the scale-2 column,
  both of which round the real value to 2 decimal places (half away from
  zero on the nonnegative values arising here).  JavaScript float arithmetic
  is abstracted to exact arithmetic; `numeric(10,8)` coordinate strings are
  carried opaquely (never computed on).
- SQL `SELECT`s become list traversals; `INSERT ... RETURNING` appends;
  `UPDATE ... WHERE` maps over rows; thrown errors become `Except.error`
  paired with the state already committed before the throw.
-/

/-- Byte-wise prefix test on character lists. -/
def charsStartWith : List Char → List Char → Bool
  | [], _ => true
  | _ :: _, [] => false
  | a :: as, b :: bs => a == b && charsStartWith as bs

/-- Substring test (`String.prototype.includes` / a fixed-token regex test). -/
def containsChars (needle : List Char) : List Char → Bool
  | [] => charsStartWith needle []
  | b :: bs => charsStartWith needle (b :: bs) || containsChars needle bs

/-- Lower-cased character list of a string (`toLowerCase()`; user-agent
strings are ASCII, so per-character ASCII lowering is faithful). -/
def lowerData (s : String) : List Char := s.data.map Char.toLower

/-- JavaScript truthiness of an optional string (`undefined`, `null` and
`""` are falsy). -/
def jsTruthy : Option String → Bool
  | none => false
  | some s => !(s == "")

/-- JavaScript strict equality `s === o` between a string and an optional
string (`undefined` compares unequal to every string). -/
def strEqOpt (s : String) : Option String → Bool
  | none => false
  | some t => s == t

/-- JavaScript `x || null` on an optional string: collapses the falsy `""`
to `null`. -/
def jsStrOrNull : Option String → Option String
  | none => none
  | some s => if s == "" then none else some s

/-- Round `100 * n / d` to the nearest integer (half up), i.e. the value of
`n / d` at scale 2 ("cents").  This is what `.toFixed(2)` and the
`numeric(10,2)` column scale produce for the nonnegative values of this
engine. -/
def roundDivCents (n d : Int) : Int := (200 * n + d).fdiv (2 * d)

/-- Number of distinct values in a list (SQL `COUNT(DISTINCT ...)`). -/
def countDistinct (l : List String) : Nat := l.dedup.length

/-- A `user_sessions` row. -/
structure Session where
  id : String
  user_id : String
  is_new_user : Bool
  ip_address : String
  user_agent : String
  device_type : String
  operating_system : String
  browser : String
  country : Option String
  city : Option String
  latitude : Option String
  longitude : Option String
  referrer : Option String
  created_at : Int
  updated_at : Int
deriving Repr, DecidableEq

/-- A `page_views` row.  `exit_time` and `time_spent` are `NULL` while the
page view is open. -/
structure PageView where
  id : String
  session_id : String
  page_url : String
  page_title : String
  entry_time : Int
  exit_time : Option Int
  time_spent : Option Int
  created_at : Int
deriving Repr, DecidableEq

/-- A `user_analytics` row (the per-user running aggregate; the surrogate
`id` column is never read by the engine and is omitted).  The two scale-2
numeric columns are stored as integer hundredths. -/
structure UserAnalytics where
  user_id : String
  total_sessions : Int
  total_page_views : Int
  total_time_spent : Int
  first_visit : Int
  last_visit : Int
  page_views_per_session_cents : Int
  average_session_duration_cents : Int
  created_at : Int
  updated_at : Int
deriving Repr, DecidableEq

/-- The database state. -/
structure DB where
  sessions : List Session
  page_views : List PageView
  user_analytics : List UserAnalytics
deriving Repr, DecidableEq

/-- Optional geolocation payload of a tracking event. The coordinate
numbers are carried opaquely as their decimal-string images. -/
structure Geolocation where
  country : Option String
  city : Option String
  latitude : Option String
  longitude : Option String
deriving Repr, DecidableEq

/-- Input of `trackEvent` (`trackEventInputSchema`). -/
structure TrackEventInput where
  user_id : String
  session_id : Option String
  page_url : String
  page_title : String
  ip_address : String
  user_agent : String
  referrer : Option String
  geolocation : Option Geolocation
deriving Repr, DecidableEq

/-- Input of `endPageView` (`endPageViewInputSchema`). -/
structure EndPageViewInput where
  page_view_id : String
  exit_time : Int
deriving Repr, DecidableEq

/-- The NotFound error taxonomy: the engine throws `Error` with these
message shapes; both are NotFound conditions per the spec taxonomy. -/
structure NotFoundError where
  message : String
deriving Repr, DecidableEq

/-- Result triple of `parseUserAgent`. -/
structure UAInfo where
  deviceType : String
  operatingSystem : String
  browser : String
deriving Repr, DecidableEq

/-- Embedding of `parseUserAgent` (src/unnamed/part_002): lower-case the
user agent, then run the fixed token tests in source order. -/
def parseUserAgent (userAgent : String) : UAInfo :=
  let ua : List Char := lowerData userAgent
  let deviceType : String :=
    if containsChars "ipad".data ua then "tablet"
    else if containsChars "mobile".data ua || containsChars "android".data ua ||
        containsChars "iphone".data ua || containsChars "ipod".data ua ||
        containsChars "blackberry".data ua || containsChars "windows phone".data ua then "mobile"
    else "desktop"
  let operatingSystem : String :=
    if containsChars "iphone".data ua || containsChars "ipad".data ua ||
        containsChars "cpu os".data ua || containsChars "cpu iphone os".data ua then "iOS"
    else if containsChars "android".data ua then "Android"
    else if containsChars "windows".data ua then "Windows"
    else if containsChars "mac os x".data ua then "macOS"
    else if containsChars "linux".data ua then "Linux"
    else "Unknown"
  let browser : String :=
    if containsChars "chrome".data ua && !containsChars "edge".data ua then "Chrome"
    else if containsChars "firefox".data ua then "Firefox"
    else if containsChars "safari".data ua && !containsChars "chrome".data ua then "Safari"
    else if containsChars "edge".data ua then "Edge"
    else if containsChars "opera".data ua then "Opera"
    else "Unknown"
  { deviceType := deviceType, operatingSystem := operatingSystem, browser := browser }

/-- Embedding of `trackEvent` (src/unnamed/part_002).  `now` stands for the
wall clock (`new Date()` and the `defaultNow()` column defaults of this
request), `freshSessionId` / `freshPageViewId` for the uuids generated by
`defaultRandom()` on insert.  Returns `{sessionId, pageViewId}` plus the
new database state; store errors are out of scope, so the call always
succeeds. -/
def trackEvent (input : TrackEventInput) (now : Int)
    (freshSessionId freshPageViewId : String) (db : DB) : (String × String) × DB :=
  let parsed := parseUserAgent input.user_agent
  -- SELECT ... FROM user_analytics WHERE user_id = input.user_id LIMIT 1
  let existingUserAnalytics := db.user_analytics.find? (fun a => a.user_id == input.user_id)
  let isNewUser := existingUserAnalytics.isNone
  -- let sessionId = input.session_id; if (!sessionId) { insert } else { touch }
  let sessionId := if jsTruthy input.session_id then input.session_id.getD "" else freshSessionId
  let sessions' :=
    if jsTruthy input.session_id then
      db.sessions.map (fun s => if s.id == sessionId then { s with updated_at := now } else s)
    else
      db.sessions ++ [{
        id := freshSessionId
        user_id := input.user_id
        is_new_user := isNewUser
        ip_address := input.ip_address
        user_agent := input.user_agent
        device_type := parsed.deviceType
        operating_system := parsed.operatingSystem
        browser := parsed.browser
        country := jsStrOrNull (input.geolocation.bind (fun g => g.country))
        city := jsStrOrNull (input.geolocation.bind (fun g => g.city))
        latitude := input.geolocation.bind (fun g => g.latitude)
        longitude := input.geolocation.bind (fun g => g.longitude)
        referrer := input.referrer
        created_at := now
        updated_at := now }]
  -- INSERT INTO page_views (entry_time, created_at use the defaultNow())
  let pageView : PageView := {
    id := freshPageViewId
    session_id := sessionId
    page_url := input.page_url
    page_title := input.page_title
    entry_time := now
    exit_time := none
    time_spent := none
    created_at := now }
  let page_views' := db.page_views ++ [pageView]
  let user_analytics' :=
    if isNewUser then
      db.user_analytics ++ [{
        user_id := input.user_id
        total_sessions := 1
        total_page_views := 1
        total_time_spent := 0
        first_visit := now
        last_visit := now
        page_views_per_session_cents := 100    -- '1.00'
        average_session_duration_cents := 0    -- '0.00'
        created_at := now
        updated_at := now }]
    else
      match existingUserAnalytics with
      | some userAnalytics =>
        -- sessionId === input.session_id ? total_sessions : total_sessions + 1
        let newTotalSessions :=
          if strEqOpt sessionId input.session_id then userAnalytics.total_sessions
          else userAnalytics.total_sessions + 1
        let newTotalPageViews := userAnalytics.total_page_views + 1
        db.user_analytics.map (fun ua =>
          if ua.user_id == input.user_id then
            { ua with
              total_sessions := newTotalSessions
              total_page_views := newTotalPageViews
              last_visit := now
              -- (newTotalPageViews / newTotalSessions).toFixed(2)
              page_views_per_session_cents := roundDivCents newTotalPageViews newTotalSessions
              updated_at := now }
          else ua)
      | none => db.user_analytics   -- unreachable: isNewUser = false means a row was found
  ((sessionId, freshPageViewId),
   { sessions := sessions', page_views := page_views', user_analytics := user_analytics' })

/-- The user-analytics update step of `endPageView` (src/unnamed/part_004,
lines 50-76): if a row for `userId` exists, add the duration to
`total_time_spent`, add `duration / total_sessions` to the scale-2
`average_session_duration`, and set `last_visit` to the exit time;
otherwise leave the table unchanged. -/
def updateAnalyticsOnClose (now exitTime duration : Int) (userId : String)
    (l : List UserAnalytics) : List UserAnalytics :=
  match l.find? (fun a => a.user_id == userId) with
  | some currentAnalytics =>
    let newTotalTimeSpent := currentAnalytics.total_time_spent + duration
    -- parseFloat(average_session_duration) + duration / total_sessions,
    -- stored back through the scale-2 column
    let newAverageCents := currentAnalytics.average_session_duration_cents +
      roundDivCents duration currentAnalytics.total_sessions
    l.map (fun a =>
      if a.user_id == userId then
        { a with
          total_time_spent := newTotalTimeSpent
          average_session_duration_cents := newAverageCents
          last_visit := exitTime
          updated_at := now }
      else a)
  | none => l   -- no aggregate yet: silently skip

/-- Embedding of `endPageView` (src/unnamed/part_004).  The returned `DB`
component always carries the writes committed before any throw (partial
writes are not rolled back). -/
def endPageView (input : EndPageViewInput) (now : Int) (db : DB) :
    Except NotFoundError PageView × DB :=
  match db.page_views.find? (fun pv => pv.id == input.page_view_id) with
  | none =>
    (Except.error ⟨"Page view with id " ++ input.page_view_id ++ " not found"⟩, db)
  | some existingPageView =>
    -- Math.max(0, Math.floor((exitTime.getTime() - entryTime.getTime()) / 1000))
    let timeSpentSeconds : Int := max 0 ((input.exit_time - existingPageView.entry_time).fdiv 1000)
    -- UPDATE page_views SET exit_time, time_spent WHERE id = input.page_view_id
    let page_views' := db.page_views.map (fun pv =>
      if pv.id == input.page_view_id then
        { pv with exit_time := some input.exit_time, time_spent := some timeSpentSeconds }
      else pv)
    -- updatedPageViews[0]: the (first) row matching the id, after the update
    let updatedPageView :=
      { existingPageView with exit_time := some input.exit_time, time_spent := some timeSpentSeconds }
    match db.sessions.find? (fun s => s.id == updatedPageView.session_id) with
    | none =>
      (Except.error ⟨"Session with id " ++ updatedPageView.session_id ++ " not found"⟩,
       { db with page_views := page_views' })
    | some session =>
      let user_analytics' :=
        updateAnalyticsOnClose now input.exit_time timeSpentSeconds session.user_id
          db.user_analytics
      (Except.ok updatedPageView,
       { db with page_views := page_views', user_analytics := user_analytics' })

/-- Analytics query filters (`analyticsFiltersSchema`); absent fields are
`none`. -/
structure AnalyticsFilters where
  start_date : Option Int
  end_date : Option Int
  country : Option String
  device_type : Option String
  page_url : Option String
  is_new_user : Option Bool
deriving Repr, DecidableEq

/-- The session-level filter conditions of `getAnalyticsSummary` (the WHERE
clauses built from `filters`, combined with `and`; an empty condition list
places no WHERE clause, which this conjunction also models).  SQL equality
on the nullable `country` column is false for NULL rows. -/
def sessionMatches (f : AnalyticsFilters) (s : Session) : Bool :=
  (match f.start_date with | some d => d ≤ s.created_at | none => true) &&
  (match f.end_date with | some d => s.created_at ≤ d | none => true) &&
  (match f.country with | some c => s.country == some c | none => true) &&
  (match f.device_type with | some d => s.device_type == d | none => true) &&
  (match f.is_new_user with | some b => s.is_new_user == b | none => true)

/-- Sessions satisfying the filter conditions. -/
def matchingSessions (db : DB) (f : AnalyticsFilters) : List Session :=
  db.sessions.filter (sessionMatches f)

/-- The per-session page-view count of the `page_count` subquery: it groups
the full `page_views` table by `session_id`, independent of the filters. -/
def sessionPageCount (db : DB) (sid : String) : Nat :=
  (db.page_views.filter (fun pv => pv.session_id == sid)).length

/-- Rows of the page-view metrics query: `page_views` INNER JOINed with the
filtered `user_sessions` (the further join with the grouped `page_count`
subquery matches exactly one row per key and adds no rows). -/
def pvJoinRows (db : DB) (f : AnalyticsFilters) : List (PageView × Session) :=
  db.page_views.flatMap (fun pv =>
    (db.sessions.filter (fun s => pv.session_id == s.id && sessionMatches f s)).map
      (fun s => (pv, s)))

/-- COUNT(CASE WHEN page_count.count = 1 THEN 1 END) over `pvJoinRows`. -/
def bounceRowCount (db : DB) (f : AnalyticsFilters) : Nat :=
  ((pvJoinRows db f).filter (fun r => sessionPageCount db r.1.session_id == 1)).length

/-- The non-NULL `time_spent` values seen by `AVG(time_spent)` over
`pvJoinRows` (SQL `AVG` ignores NULLs). -/
def joinTimeSpentValues (db : DB) (f : AnalyticsFilters) : List Int :=
  (pvJoinRows db f).filterMap (fun r => r.1.time_spent)

/-- One row of the `top_pages` result. -/
structure PageEntry where
  page_url : String
  views : Nat
  unique_views : Nat
deriving Repr, DecidableEq

/-- One row of the `top_countries` result. -/
structure CountryEntry where
  country : String
  users : Nat
  sessions : Nat
deriving Repr, DecidableEq

/-- One row of the `browser_breakdown` result. -/
structure BrowserEntry where
  browser : String
  users : Nat
  percentage : Rat
deriving Repr, DecidableEq

/-- The `device_breakdown` record. -/
structure DeviceBreakdown where
  desktop : Nat
  mobile : Nat
  tablet : Nat
deriving Repr, DecidableEq

/-- The summary report (`analyticsSummarySchema`). -/
structure AnalyticsSummary where
  total_users : Nat
  total_sessions : Nat
  total_page_views : Nat
  new_users : Nat
  returning_users : Nat
  average_session_duration : Rat
  bounce_rate : Rat
  top_pages : List PageEntry
  top_countries : List CountryEntry
  device_breakdown : DeviceBreakdown
  browser_breakdown : List BrowserEntry
deriving Repr, DecidableEq

/-- Descending order on `users` used for `ORDER BY countDistinct(...) DESC`
of the top-countries query. -/
def usersGE (a b : CountryEntry) : Prop := b.users ≤ a.users

instance : DecidableRel usersGE := fun _ _ => Nat.decLe _ _

instance : IsTotal CountryEntry usersGE := ⟨fun a b => Nat.le_total b.users a.users⟩

instance : IsTrans CountryEntry usersGE := ⟨fun _ _ _ h1 h2 => Nat.le_trans h2 h1⟩

/-- Descending order on `users` for the browser-breakdown query. -/
def browserUsersGE (a b : BrowserEntry) : Prop := b.users ≤ a.users

instance : DecidableRel browserUsersGE := fun _ _ => Nat.decLe _ _

/-- Descending order on `views` for the top-pages query. -/
def viewsGE (a b : PageEntry) : Prop := b.views ≤ a.views

instance : DecidableRel viewsGE := fun _ _ => Nat.decLe _ _

/-- The distinct non-NULL `country` values among matching sessions (the
GROUP BY keys of the top-countries query). -/
def countryKeys (db : DB) (f : AnalyticsFilters) : List String :=
  ((matchingSessions db f).filterMap (fun s => s.country)).dedup

/-- The aggregated row of one GROUP BY `country` key. -/
def countryGroup (db : DB) (f : AnalyticsFilters) (c : String) : CountryEntry :=
  let rows := (matchingSessions db f).filter (fun s => s.country == some c)
  { country := c
    users := countDistinct (rows.map (fun s => s.user_id))
    sessions := rows.length }

/-- Embedding of `getAnalyticsSummary`
(src/server/src/handlers/get_analytics_summary.ts). -/
def getAnalyticsSummary (db : DB) (f : AnalyticsFilters) : AnalyticsSummary :=
  let ms := matchingSessions db f
  -- 1. basic metrics
  let total_users := countDistinct (ms.map (fun s => s.user_id))
  let total_sessions := ms.length
  let new_users := (ms.filter (fun s => s.is_new_user)).length
  let returning_users := (ms.filter (fun s => !s.is_new_user)).length
  -- 2. page-view metrics over the join
  let total_page_views := (pvJoinRows db f).length
  let tsVals := joinTimeSpentValues db f
  let avgTimeSpent : Option Rat :=
    if tsVals.isEmpty then none else some (((tsVals.sum : Int) : Rat) / (tsVals.length : Rat))
  -- 3. top pages (page_url filter narrows only this query)
  let pageRows := (pvJoinRows db f).filter (fun r =>
    match f.page_url with | some u => r.1.page_url == u | none => true)
  let pageKeys := (pageRows.map (fun r => r.1.page_url)).dedup
  let top_pages := ((pageKeys.map (fun u =>
      let rows := pageRows.filter (fun r => r.1.page_url == u)
      { page_url := u
        views := rows.length
        unique_views := countDistinct (rows.map (fun r => r.1.session_id)) : PageEntry })).insertionSort
      viewsGE).take 10
  -- 4. top countries (matching sessions with country IS NOT NULL)
  let top_countries := (((countryKeys db f).map (countryGroup db f)).insertionSort usersGE).take 10
  -- 5. device breakdown: per-group counts assigned to the lowercase buckets
  let deviceKeys := (ms.map (fun s => s.device_type)).dedup
  let deviceGroups := deviceKeys.map (fun d => (d, (ms.filter (fun s => s.device_type == d)).length))
  let device_breakdown := deviceGroups.foldl (fun acc g =>
    if lowerData g.1 = "desktop".data then { acc with desktop := g.2 }
    else if lowerData g.1 = "mobile".data then { acc with mobile := g.2 }
    else if lowerData g.1 = "tablet".data then { acc with tablet := g.2 }
    else acc) ({ desktop := 0, mobile := 0, tablet := 0 } : DeviceBreakdown)
  -- 6. browser breakdown: top-10 by distinct users, percentages over the
  --    distinct-user sum of the returned (top-10) groups
  let browserKeys := (ms.map (fun s => s.browser)).dedup
  let browserGroups := ((browserKeys.map (fun b =>
      (b, countDistinct ((ms.filter (fun s => s.browser == b)).map (fun s => s.user_id))))).insertionSort
      (fun a b => b.2 ≤ a.2)).take 10
  let totalBrowserUsers := (browserGroups.map (fun g => g.2)).sum
  let browser_breakdown := browserGroups.map (fun g =>
    { browser := g.1
      users := g.2
      percentage := if 0 < totalBrowserUsers then ((g.2 : Rat) / (totalBrowserUsers : Rat)) * 100 else 0 })
  -- bounce rate
  let bounce_rate : Rat :=
    if 0 < total_sessions then ((bounceRowCount db f : Rat) / (total_sessions : Rat)) * 100 else 0
  { total_users := total_users
    total_sessions := total_sessions
    total_page_views := total_page_views
    new_users := new_users
    returning_users := returning_users
    average_session_duration := match avgTimeSpent with | some v => v | none => 0
    bounce_rate := bounce_rate
    top_pages := top_pages
    top_countries := top_countries
    device_breakdown := device_breakdown
    browser_breakdown := browser_breakdown }

/-- Spec-side definition (§4.4 / claim C5): the number of matching sessions
with exactly one page view, the page-view count taken over the full
`page_views` table. -/
def spec_bounce_sessions (db : DB) (f : AnalyticsFilters) : Nat :=
  ((matchingSessions db f).filter (fun s => sessionPageCount db s.id == 1)).length

/-- Spec-side definition (§4.4 / claim C7): the page views belonging to
matching sessions. -/
def pagesOfMatchingSessions (db : DB) (f : AnalyticsFilters) : List PageView :=
  db.page_views.filter (fun pv => (matchingSessions db f).any (fun s => s.id == pv.session_id))

/-- Spec-side definition (claim C7): the `time_spent` values set on page
views of matching sessions (open page views carry no value). -/
def spec_time_spent_values (db : DB) (f : AnalyticsFilters) : List Int :=
  (pagesOfMatchingSessions db f).filterMap (fun pv => pv.time_spent)

/-- The closing duration of `endPageView`:
`Math.max(0, Math.floor((exit - entry) / 1000))`, in seconds. -/
def closeDuration (entry exitTime : Int) : Int := max 0 ((exitTime - entry).fdiv 1000)

/-- A page-view row with the closing columns set (the SET clause of the
page-view UPDATE). -/
def closeRowWith (d exitTime : Int) (q : PageView) : PageView :=
  { q with exit_time := some exitTime, time_spent := some d }

/-- Decidable equality for `Except` results (needed to evaluate concrete
handler runs). -/
def exceptDecEq {e a : Type} [DecidableEq e] [DecidableEq a] : DecidableEq (Except e a)
  | .error x, .error y =>
    if h : x = y then isTrue (congrArg Except.error h)
    else isFalse (fun hc => h (by injection hc))
  | .error _, .ok _ => isFalse (fun hc => Except.noConfusion hc)
  | .ok _, .error _ => isFalse (fun hc => Except.noConfusion hc)
  | .ok x, .ok y =>
    if h : x = y then isTrue (congrArg Except.ok h)
    else isFalse (fun hc => h (by injection hc))

instance {e a : Type} [DecidableEq e] [DecidableEq a] : DecidableEq (Except e a) := exceptDecEq

/-- Sample session row for concrete witnesses. -/
def sessW : Session :=
  { id := "s1", user_id := "u1", is_new_user := true, ip_address := "ip", user_agent := "ua",
    device_type := "desktop", operating_system := "Windows", browser := "Chrome",
    country := some "US", city := none, latitude := none, longitude := none, referrer := none,
    created_at := 0, updated_at := 0 }

/-- Sample open page view (entered at epoch 0) for concrete witnesses. -/
def pvW : PageView :=
  { id := "p1", session_id := "s1", page_url := "/home", page_title := "Home",
    entry_time := 0, exit_time := none, time_spent := none, created_at := 0 }

/-- Sample aggregate row for concrete witnesses. -/
def aggW : UserAnalytics :=
  { user_id := "u1", total_sessions := 1, total_page_views := 1, total_time_spent := 0,
    first_visit := 0, last_visit := 0, page_views_per_session_cents := 100,
    average_session_duration_cents := 0, created_at := 0, updated_at := 0 }

/-- Sample database: one session, one open page view, one aggregate. -/
def dbW : DB := { sessions := [sessW], page_views := [pvW], user_analytics := [aggW] }

/-- The page view of `dbW` closed at 210000 ms (210 seconds after entry,
the 3-minute-30 span of Scenario D). -/
def pvClosedW : PageView := closeRowWith 210 210000 pvW

/-- State of `dbW` after closing the page view at 210000 ms. -/
def dbW2 : DB := (endPageView ⟨"p1", 210000⟩ 210000 dbW).2

/-- State of `dbW2` after closing the same page view again with the same
exit time. -/
def dbW3 : DB := (endPageView ⟨"p1", 210000⟩ 777 dbW2).2

/-- Sample tracking input with no session id. -/
def trackInW : TrackEventInput :=
  { user_id := "u1", session_id := none, page_url := "/x", page_title := "X",
    ip_address := "ip", user_agent := "Mozilla", referrer := none, geolocation := none }

/-- The new aggregate row written by `updateAnalyticsOnClose` for the found
row: duration added to `total_time_spent`, `duration / total_sessions`
added to the scale-2 average, `last_visit` set to the exit time. -/
def closeAggUpdate (now exitTime d : Int) (a : UserAnalytics) : UserAnalytics :=
  { a with
    total_time_spent := a.total_time_spent + d
    average_session_duration_cents :=
      a.average_session_duration_cents + roundDivCents d a.total_sessions
    last_visit := exitTime
    updated_at := now }

/-- Empty filter set (no WHERE clauses). -/
def fW : AnalyticsFilters :=
  { start_date := none, end_date := none, country := none, device_type := none,
    page_url := none, is_new_user := none }

/-- A `find?` over a mapped list, when the map preserves the predicate. -/
theorem find?_map_pred {α : Type} (p : α → Bool) (f : α → α) (l : List α)
    (hpf : ∀ a, p (f a) = p a) : (l.map f).find? p = (l.find? p).map f := by
  induction l with
  | nil => rfl
  | cons a t ih =>
    by_cases h : p a
    · simp [List.find?_cons_of_pos, h, hpf]
    · rw [List.map_cons, List.find?_cons_of_neg _ (by simp [hpf, h]),
        List.find?_cons_of_neg _ (by simp [h]), ih]

/-- A conditional row update leaves `find?` at the updated first hit, when
the update preserves the lookup key. -/
theorem find?_if_update {α : Type} (p : α → Bool) (g : α → α) (l : List α) (a : α)
    (hg : ∀ x, p (g x) = p x) (h : l.find? p = some a) :
    (l.map (fun x => if p x then g x else x)).find? p = some (g a) := by
  have hpf : ∀ x, p (if p x then g x else x) = p x := by
    intro x; by_cases hx : p x <;> simp [hx, hg]
  rw [find?_map_pred p _ l hpf, h]
  have hpa : p a = true := List.find?_some h
  simp [Option.map_some, hpa]

/-- Inversion of a successful `endPageView` call: the looked-up rows exist
and the result components are exactly the embedded writes. -/
theorem endPageView_ok_inv (input : EndPageViewInput) (now : Int) (db : DB)
    (pv : PageView) (db' : DB)
    (h : endPageView input now db = (Except.ok pv, db')) :
    ∃ pv0 s,
      db.page_views.find? (fun q => q.id == input.page_view_id) = some pv0 ∧
      db.sessions.find? (fun t => t.id == pv0.session_id) = some s ∧
      pv = closeRowWith (closeDuration pv0.entry_time input.exit_time) input.exit_time pv0 ∧
      db'.sessions = db.sessions ∧
      db'.page_views = db.page_views.map (fun q =>
        if q.id == input.page_view_id then
          closeRowWith (closeDuration pv0.entry_time input.exit_time) input.exit_time q
        else q) ∧
      db'.user_analytics = updateAnalyticsOnClose now input.exit_time
        (closeDuration pv0.entry_time input.exit_time) s.user_id db.user_analytics := by
  simp only [endPageView] at h
  split at h
  · simp at h
  · rename_i pv0 hf
    split at h
    · simp at h
    · rename_i s hs
      rw [Prod.ext_iff] at h
      obtain ⟨h1, h2⟩ := h
      simp only [Except.ok.injEq] at h1
      dsimp only at h2
      refine ⟨pv0, s, hf, by simpa using hs, ?_, ?_, ?_, ?_⟩
      · rw [← h1]; rfl
      · rw [← h2]
      · rw [← h2]; rfl
      · rw [← h2]; rfl

/-- A negative span clamps to zero. -/
theorem closeDuration_of_lt (entry x : Int) (h : x < entry) : closeDuration entry x = 0 := by
  unfold closeDuration
  have h1 : (x - entry).fdiv 1000 ≤ 0 := by
    rw [Int.fdiv_eq_ediv _ (by omega)]
    calc (x - entry) / 1000 ≤ 0 / 1000 := Int.ediv_le_ediv (by omega) (by omega)
      _ = 0 := Int.zero_ediv 1000
  exact max_eq_left h1

/-- C2: a successful `endPageView` stores and returns
`time_spent = max(0, floor((exit_time - entry_time) in seconds))`; the value
is never negative, and an exit time earlier than the entry time yields 0. -/
theorem endPageView_time_spent_C2 (input : EndPageViewInput) (now : Int) (db : DB)
    (pv pv0 : PageView) (db' : DB)
    (hfind : db.page_views.find? (fun q => q.id == input.page_view_id) = some pv0)
    (hok : endPageView input now db = (Except.ok pv, db')) :
    pv.time_spent = some (max 0 ((input.exit_time - pv0.entry_time).fdiv 1000)) ∧
    (db'.page_views.find? (fun q => q.id == input.page_view_id)).map
        (fun q => q.time_spent) = some pv.time_spent ∧
    (∀ t, pv.time_spent = some t → 0 ≤ t) ∧
    (input.exit_time < pv0.entry_time → pv.time_spent = some 0) := by
  obtain ⟨pv1, s, hf1, hs1, hpv, hsess, hpvs, hua⟩ := endPageView_ok_inv input now db pv db' hok
  rw [hfind] at hf1
  obtain rfl : pv0 = pv1 := by simpa using hf1
  have hstored : db'.page_views.find? (fun q => q.id == input.page_view_id) =
      some (closeRowWith (closeDuration pv0.entry_time input.exit_time) input.exit_time pv0) := by
    rw [hpvs]
    exact find?_if_update _ _ _ _ (fun x => by simp [closeRowWith]) hfind
  refine ⟨?_, ?_, ?_, ?_⟩
  · rw [hpv]; simp [closeRowWith, closeDuration]
  · rw [hstored, hpv]; rfl
  · intro t ht
    rw [hpv] at ht
    simp only [closeRowWith, closeDuration, Option.some.injEq] at ht
    omega
  · intro hlt
    rw [hpv]
    simp [closeRowWith, closeDuration_of_lt _ _ hlt]

/-- C2, instantiated: closing the Scenario D page view (entry at 0 ms, exit
at 210000 ms) yields `time_spent = 210`. -/
theorem endPageView_time_spent_C2_witness :
    dbW.page_views.find? (fun q => q.id == ("p1" : String)) = some pvW ∧
    pvClosedW.time_spent = some (max 0 (((210000 : Int) - pvW.entry_time).fdiv 1000)) ∧
    pvClosedW.time_spent = some 210 :=
  ⟨by decide,
   (endPageView_time_spent_C2 ⟨"p1", 210000⟩ 210000 dbW pvClosedW pvW dbW2
     (by decide) (by decide)).1,
   by decide⟩

/-- C4: `endPageView` fails with the page-view NotFound error when the id is
unknown, fails with the session NotFound error when the owning session row
is missing, and a missing aggregate is not an error: the update is skipped
and the closed page view is still returned. -/
theorem endPageView_errors_C4 (input : EndPageViewInput) (now : Int) (db : DB) :
    (db.page_views.find? (fun q => q.id == input.page_view_id) = none →
      (endPageView input now db).1 =
        Except.error ⟨"Page view with id " ++ input.page_view_id ++ " not found"⟩) ∧
    (∀ pv0, db.page_views.find? (fun q => q.id == input.page_view_id) = some pv0 →
      db.sessions.find? (fun t => t.id == pv0.session_id) = none →
      (endPageView input now db).1 =
        Except.error ⟨"Session with id " ++ pv0.session_id ++ " not found"⟩) ∧
    (∀ pv0 s, db.page_views.find? (fun q => q.id == input.page_view_id) = some pv0 →
      db.sessions.find? (fun t => t.id == pv0.session_id) = some s →
      db.user_analytics.find? (fun a => a.user_id == s.user_id) = none →
      (endPageView input now db).1 = Except.ok
        (closeRowWith (closeDuration pv0.entry_time input.exit_time) input.exit_time pv0) ∧
      (endPageView input now db).2.user_analytics = db.user_analytics) := by
  refine ⟨?_, ?_, ?_⟩
  · intro hnone
    simp [endPageView, hnone]
  · intro pv0 hf hs
    simp only [endPageView, hf]
    simp [hs]
  · intro pv0 s hf hs ha
    simp only [endPageView, hf]
    simp only [hs]
    constructor
    · simp [closeRowWith, closeDuration]
    · simp [updateAnalyticsOnClose, ha]

/-- C4, instantiated on three one-row databases: unknown page view id,
orphaned page view, and missing aggregate. -/
theorem endPageView_errors_C4_witness :
    (endPageView ⟨"nope", 5⟩ 5 (DB.mk [] [] [])).1 =
      Except.error ⟨"Page view with id nope not found"⟩ ∧
    (endPageView ⟨"p1", 5⟩ 5 (DB.mk [] [pvW] [])).1 =
      Except.error ⟨"Session with id s1 not found"⟩ ∧
    ((endPageView ⟨"p1", 210000⟩ 210000 (DB.mk [sessW] [pvW] [])).1 =
        Except.ok (closeRowWith (closeDuration pvW.entry_time 210000) 210000 pvW) ∧
      (endPageView ⟨"p1", 210000⟩ 210000 (DB.mk [sessW] [pvW] [])).2.user_analytics = []) :=
  ⟨(endPageView_errors_C4 ⟨"nope", 5⟩ 5 (DB.mk [] [] [])).1 (by decide),
   (endPageView_errors_C4 ⟨"p1", 5⟩ 5 (DB.mk [] [pvW] [])).2.1 pvW (by decide) (by decide),
   (endPageView_errors_C4 ⟨"p1", 210000⟩ 210000 (DB.mk [sessW] [pvW] [])).2.2 pvW sessW
     (by decide) (by decide) (by decide)⟩

/-- C6: two successful `endPageView` calls on the same page view with the
same exit time return the same `time_spent` both times. -/
theorem endPageView_idempotent_C6 (input : EndPageViewInput) (n1 n2 : Int)
    (db db1 db2 : DB) (pv1 pv2 : PageView)
    (h1 : endPageView input n1 db = (Except.ok pv1, db1))
    (h2 : endPageView input n2 db1 = (Except.ok pv2, db2)) :
    pv2.time_spent = pv1.time_spent := by
  obtain ⟨pv0, s, hf, hs, hpv1, hsess, hpvs, hua⟩ := endPageView_ok_inv input n1 db pv1 db1 h1
  obtain ⟨pv0', s', hf', hs', hpv2, _, _, _⟩ := endPageView_ok_inv input n2 db1 pv2 db2 h2
  have hf1 : db1.page_views.find? (fun q => q.id == input.page_view_id) =
      some (closeRowWith (closeDuration pv0.entry_time input.exit_time) input.exit_time pv0) := by
    rw [hpvs]
    exact find?_if_update _ _ _ _ (fun x => by simp [closeRowWith]) hf
  rw [hf1] at hf'
  obtain rfl : pv0' = closeRowWith (closeDuration pv0.entry_time input.exit_time)
      input.exit_time pv0 := by simpa using hf'.symm
  rw [hpv1, hpv2]
  simp [closeRowWith, closeDuration]

/-- C6, instantiated: closing the Scenario D page view twice with exit time
210000 ms returns `time_spent = 210` both times. -/
theorem endPageView_idempotent_C6_witness :
    endPageView ⟨"p1", 210000⟩ 210000 dbW = (Except.ok pvClosedW, dbW2) ∧
    endPageView ⟨"p1", 210000⟩ 777 dbW2 = (Except.ok pvClosedW, dbW3) ∧
    pvClosedW.time_spent = pvClosedW.time_spent :=
  ⟨by decide, by decide,
   endPageView_idempotent_C6 ⟨"p1", 210000⟩ 210000 777 dbW dbW2 dbW3 pvClosedW pvClosedW
     (by decide) (by decide)⟩

/-- The analytics update of a close, seen through `find?`: the row of the
user is replaced by `closeAggUpdate` of the found row. -/
theorem updateAnalyticsOnClose_find? (now x d : Int) (uid : String)
    (l : List UserAnalytics) (a : UserAnalytics)
    (h : l.find? (fun b => b.user_id == uid) = some a) :
    (updateAnalyticsOnClose now x d uid l).find? (fun b => b.user_id == uid) =
      some (closeAggUpdate now x d a) := by
  unfold updateAnalyticsOnClose
  rw [h]
  exact find?_if_update _ _ _ _ (fun b => by simp) h

/-- C3: when a successful `endPageView` finds an aggregate for the owning
session's user, it adds the duration to `total_time_spent`, sets
`last_visit` to the exit time, and adds `duration / total_sessions` (at the
stored scale 2) to `average_session_duration` — an additive per-event
increment over the unchanged `total_sessions`, not a recomputation. -/
theorem endPageView_aggregate_C3 (input : EndPageViewInput) (now : Int) (db : DB)
    (pv pv0 : PageView) (s : Session) (a : UserAnalytics) (db' : DB)
    (hpv : db.page_views.find? (fun q => q.id == input.page_view_id) = some pv0)
    (hs : db.sessions.find? (fun t => t.id == pv0.session_id) = some s)
    (ha : db.user_analytics.find? (fun b => b.user_id == s.user_id) = some a)
    (hok : endPageView input now db = (Except.ok pv, db')) :
    ∃ a', db'.user_analytics.find? (fun b => b.user_id == s.user_id) = some a' ∧
      a'.total_time_spent = a.total_time_spent + closeDuration pv0.entry_time input.exit_time ∧
      a'.last_visit = input.exit_time ∧
      a'.average_session_duration_cents = a.average_session_duration_cents +
        roundDivCents (closeDuration pv0.entry_time input.exit_time) a.total_sessions ∧
      a'.total_sessions = a.total_sessions := by
  obtain ⟨pv0', s', hf', hs', hpv', hsess, hpvs, hua⟩ := endPageView_ok_inv input now db pv db' hok
  rw [hpv] at hf'
  obtain rfl : pv0 = pv0' := by simpa using hf'
  rw [hs] at hs'
  obtain rfl : s = s' := by simpa using hs'
  refine ⟨closeAggUpdate now input.exit_time (closeDuration pv0.entry_time input.exit_time) a,
    ?_, ?_, ?_, ?_, ?_⟩
  · rw [hua]
    exact updateAnalyticsOnClose_find? now input.exit_time _ s.user_id db.user_analytics a ha
  · simp [closeAggUpdate]
  · simp [closeAggUpdate]
  · simp [closeAggUpdate]
  · simp [closeAggUpdate]

/-- C3, instantiated: closing the Scenario D page view on `dbW` adds 210
seconds to `total_time_spent` and `210 / 1` seconds to the average. -/
theorem endPageView_aggregate_C3_witness :
    dbW.user_analytics.find? (fun b => b.user_id == sessW.user_id) = some aggW ∧
    (∃ a', dbW2.user_analytics.find? (fun b => b.user_id == sessW.user_id) = some a' ∧
      a'.total_time_spent = aggW.total_time_spent + closeDuration pvW.entry_time 210000 ∧
      a'.last_visit = 210000 ∧
      a'.average_session_duration_cents = aggW.average_session_duration_cents +
        roundDivCents (closeDuration pvW.entry_time 210000) aggW.total_sessions ∧
      a'.total_sessions = aggW.total_sessions) :=
  ⟨by decide,
   endPageView_aggregate_C3 ⟨"p1", 210000⟩ 210000 dbW pvClosedW pvW sessW aggW dbW2
     (by decide) (by decide) (by decide) (by decide)⟩

/-- C10: the aggregate update of `endPageView` happens even when the page
view was already closed: two successful closes with the same exit time add
the duration twice to `total_time_spent` and `duration / total_sessions`
twice to the average — the aggregate update is not idempotent. -/
theorem endPageView_double_close_C10 (input : EndPageViewInput) (n1 n2 : Int)
    (db db1 db2 : DB) (pv1 pv2 pv0 : PageView) (s : Session) (a : UserAnalytics)
    (hpv : db.page_views.find? (fun q => q.id == input.page_view_id) = some pv0)
    (hs : db.sessions.find? (fun t => t.id == pv0.session_id) = some s)
    (ha : db.user_analytics.find? (fun b => b.user_id == s.user_id) = some a)
    (h1 : endPageView input n1 db = (Except.ok pv1, db1))
    (h2 : endPageView input n2 db1 = (Except.ok pv2, db2)) :
    ∃ a'', db2.user_analytics.find? (fun b => b.user_id == s.user_id) = some a'' ∧
      a''.total_time_spent = a.total_time_spent +
        2 * closeDuration pv0.entry_time input.exit_time ∧
      a''.average_session_duration_cents = a.average_session_duration_cents +
        2 * roundDivCents (closeDuration pv0.entry_time input.exit_time) a.total_sessions := by
  obtain ⟨pv0a, sa, hfa, hsa, hpva, hsessa, hpvsa, huaa⟩ :=
    endPageView_ok_inv input n1 db pv1 db1 h1
  rw [hpv] at hfa
  obtain rfl : pv0 = pv0a := by simpa using hfa
  rw [hs] at hsa
  obtain rfl : s = sa := by simpa using hsa
  obtain ⟨pv0b, sb, hfb, hsb, hpvb, hsessb, hpvsb, huab⟩ :=
    endPageView_ok_inv input n2 db1 pv2 db2 h2
  -- the second lookup finds the closed row, whose entry_time and session_id
  -- are those of pv0
  have hf1 : db1.page_views.find? (fun q => q.id == input.page_view_id) =
      some (closeRowWith (closeDuration pv0.entry_time input.exit_time) input.exit_time pv0) := by
    rw [hpvsa]
    exact find?_if_update _ _ _ _ (fun x => by simp [closeRowWith]) hpv
  rw [hf1] at hfb
  obtain rfl : pv0b = closeRowWith (closeDuration pv0.entry_time input.exit_time)
      input.exit_time pv0 := by simpa using hfb.symm
  have hsb' : db.sessions.find? (fun t => t.id == pv0.session_id) = some sb := by
    rw [← hsessa]
    simpa [closeRowWith] using hsb
  rw [hs] at hsb'
  obtain rfl : s = sb := by simpa using hsb'
  -- aggregate after the first close
  have ha1 : db1.user_analytics.find? (fun b => b.user_id == s.user_id) =
      some (closeAggUpdate n1 input.exit_time
        (closeDuration pv0.entry_time input.exit_time) a) := by
    rw [huaa]
    exact updateAnalyticsOnClose_find? n1 input.exit_time _ s.user_id db.user_analytics a ha
  refine ⟨closeAggUpdate n2 input.exit_time
      (closeDuration (closeRowWith (closeDuration pv0.entry_time input.exit_time)
        input.exit_time pv0).entry_time input.exit_time)
      (closeAggUpdate n1 input.exit_time (closeDuration pv0.entry_time input.exit_time) a),
    ?_, ?_, ?_⟩
  · rw [huab]
    exact updateAnalyticsOnClose_find? n2 input.exit_time _ s.user_id db1.user_analytics _ ha1
  · simp [closeAggUpdate, closeRowWith]
    omega
  · simp [closeAggUpdate, closeRowWith]
    omega

/-- C10, instantiated: closing the Scenario D page view twice on `dbW` puts
`total_time_spent = 420` on the aggregate, twice the 210-second duration. -/
theorem endPageView_double_close_C10_witness :
    dbW.user_analytics.find? (fun b => b.user_id == sessW.user_id) = some aggW ∧
    (∃ a'', dbW3.user_analytics.find? (fun b => b.user_id == sessW.user_id) = some a'' ∧
      a''.total_time_spent = aggW.total_time_spent +
        2 * closeDuration pvW.entry_time 210000 ∧
      a''.average_session_duration_cents = aggW.average_session_duration_cents +
        2 * roundDivCents (closeDuration pvW.entry_time 210000) aggW.total_sessions) :=
  ⟨by decide,
   endPageView_double_close_C10 ⟨"p1", 210000⟩ 210000 777 dbW dbW2 dbW3
     pvClosedW pvClosedW pvW sessW aggW
     (by decide) (by decide) (by decide) (by decide) (by decide)⟩

/-- C1: `trackEvent` inserts a fresh aggregate (sessions=1, page views=1,
time=0, first=last=now, 1.00 / 0.00) when none exists for the user;
otherwise it always increments `total_page_views`, increments
`total_sessions` exactly when no session id was supplied (so a new session
was created), recomputes `page_views_per_session` as the new quotient at
scale 2, and sets `last_visit` to now.  (The degenerate supplied value
`some ""`, which JavaScript treats as absent, is excluded.) -/
theorem trackEvent_aggregate_C1 (input : TrackEventInput) (now : Int)
    (sidNew pvNew : String) (db : DB)
    (hempty : input.session_id ≠ some "") :
    (db.user_analytics.find? (fun a => a.user_id == input.user_id) = none →
      (trackEvent input now sidNew pvNew db).2.user_analytics =
        db.user_analytics ++ [UserAnalytics.mk input.user_id 1 1 0 now now 100 0 now now]) ∧
    (∀ a, db.user_analytics.find? (fun a => a.user_id == input.user_id) = some a →
      ∃ a', (trackEvent input now sidNew pvNew db).2.user_analytics.find?
          (fun b => b.user_id == input.user_id) = some a' ∧
        a'.total_page_views = a.total_page_views + 1 ∧
        (a'.total_sessions = a.total_sessions + 1 ↔ input.session_id = none) ∧
        a'.page_views_per_session_cents =
          roundDivCents (a.total_page_views + 1) a'.total_sessions ∧
        a'.last_visit = now) := by
  constructor
  · intro hnone
    simp [trackEvent, hnone]
  · intro a ha
    cases hsi : input.session_id with
    | none =>
      simp only [trackEvent, ha, hsi, Option.isNone_some, jsTruthy, strEqOpt,
        Bool.false_eq_true, if_false]
      refine ⟨_, find?_if_update _ _ _ _ (fun b => by simp) ha, by simp, ?_, by simp, by simp⟩
      simp
    | some t =>
      have ht : (t == "") = false := by
        rw [beq_eq_false_iff_ne]
        intro h
        exact hempty (by rw [hsi, h])
      simp only [trackEvent, ha, hsi, Option.isNone_some, jsTruthy, strEqOpt, ht,
        Bool.not_false, if_true, Option.getD_some, beq_self_eq_true, if_pos]
      refine ⟨_, find?_if_update _ _ _ _ (fun b => by simp) ha, by simp, ?_, by simp, by simp⟩
      constructor
      · intro h
        simp at h
      · intro h
        cases h

/-- C1, instantiated (Scenario C shape): a second event for "u1" with no
session id takes the aggregate from 1 session / 1 page view to 2 / 2. -/
theorem trackEvent_aggregate_C1_witness :
    (trackInW.session_id ≠ some "") ∧
    dbW.user_analytics.find? (fun a => a.user_id == trackInW.user_id) = some aggW ∧
    (∃ a', (trackEvent trackInW 5 "s2" "p2" dbW).2.user_analytics.find?
        (fun b => b.user_id == trackInW.user_id) = some a' ∧
      a'.total_page_views = aggW.total_page_views + 1 ∧
      (a'.total_sessions = aggW.total_sessions + 1 ↔ trackInW.session_id = none) ∧
      a'.page_views_per_session_cents =
        roundDivCents (aggW.total_page_views + 1) a'.total_sessions ∧
      a'.last_visit = 5) :=
  ⟨by decide, by decide,
   (trackEvent_aggregate_C1 trackInW 5 "s2" "p2" dbW (by decide)).2 aggW (by decide)⟩

/-- C9: `parseUserAgent` is a pure total classifier: the device class is one
of desktop/mobile/tablet with the tablet (ipad) pattern preceding the
mobile pattern preceding the desktop default; the browser chain is
Chrome-without-Edge, then Firefox, then Safari-without-Chrome, then Edge,
then Opera, else "Unknown"; unmatched OS tokens fall back to "Unknown". -/
theorem parseUserAgent_C9 (ua : String) :
    ((parseUserAgent ua).deviceType = "desktop" ∨ (parseUserAgent ua).deviceType = "mobile" ∨
      (parseUserAgent ua).deviceType = "tablet") ∧
    (containsChars "ipad".data (lowerData ua) = true →
      (parseUserAgent ua).deviceType = "tablet") ∧
    (containsChars "ipad".data (lowerData ua) = false →
      (containsChars "mobile".data (lowerData ua) || containsChars "android".data (lowerData ua) ||
        containsChars "iphone".data (lowerData ua) || containsChars "ipod".data (lowerData ua) ||
        containsChars "blackberry".data (lowerData ua) ||
        containsChars "windows phone".data (lowerData ua)) = true →
      (parseUserAgent ua).deviceType = "mobile") ∧
    (containsChars "ipad".data (lowerData ua) = false →
      (containsChars "mobile".data (lowerData ua) || containsChars "android".data (lowerData ua) ||
        containsChars "iphone".data (lowerData ua) || containsChars "ipod".data (lowerData ua) ||
        containsChars "blackberry".data (lowerData ua) ||
        containsChars "windows phone".data (lowerData ua)) = false →
      (parseUserAgent ua).deviceType = "desktop") ∧
    ((containsChars "chrome".data (lowerData ua) &&
        !containsChars "edge".data (lowerData ua)) = true →
      (parseUserAgent ua).browser = "Chrome") ∧
    ((containsChars "chrome".data (lowerData ua) &&
        !containsChars "edge".data (lowerData ua)) = false →
      containsChars "firefox".data (lowerData ua) = true →
      (parseUserAgent ua).browser = "Firefox") ∧
    ((containsChars "chrome".data (lowerData ua) &&
        !containsChars "edge".data (lowerData ua)) = false →
      containsChars "firefox".data (lowerData ua) = false →
      (containsChars "safari".data (lowerData ua) &&
        !containsChars "chrome".data (lowerData ua)) = true →
      (parseUserAgent ua).browser = "Safari") ∧
    ((containsChars "chrome".data (lowerData ua) &&
        !containsChars "edge".data (lowerData ua)) = false →
      containsChars "firefox".data (lowerData ua) = false →
      (containsChars "safari".data (lowerData ua) &&
        !containsChars "chrome".data (lowerData ua)) = false →
      containsChars "edge".data (lowerData ua) = true →
      (parseUserAgent ua).browser = "Edge") ∧
    ((containsChars "chrome".data (lowerData ua) &&
        !containsChars "edge".data (lowerData ua)) = false →
      containsChars "firefox".data (lowerData ua) = false →
      (containsChars "safari".data (lowerData ua) &&
        !containsChars "chrome".data (lowerData ua)) = false →
      containsChars "edge".data (lowerData ua) = false →
      containsChars "opera".data (lowerData ua) = true →
      (parseUserAgent ua).browser = "Opera") ∧
    ((containsChars "chrome".data (lowerData ua) &&
        !containsChars "edge".data (lowerData ua)) = false →
      containsChars "firefox".data (lowerData ua) = false →
      (containsChars "safari".data (lowerData ua) &&
        !containsChars "chrome".data (lowerData ua)) = false →
      containsChars "edge".data (lowerData ua) = false →
      containsChars "opera".data (lowerData ua) = false →
      (parseUserAgent ua).browser = "Unknown") ∧
    ((containsChars "iphone".data (lowerData ua) || containsChars "ipad".data (lowerData ua) ||
        containsChars "cpu os".data (lowerData ua) ||
        containsChars "cpu iphone os".data (lowerData ua)) = false →
      containsChars "android".data (lowerData ua) = false →
      containsChars "windows".data (lowerData ua) = false →
      containsChars "mac os x".data (lowerData ua) = false →
      containsChars "linux".data (lowerData ua) = false →
      (parseUserAgent ua).operatingSystem = "Unknown") := by
  refine ⟨?_, ?_, ?_, ?_, ?_, ?_, ?_, ?_, ?_, ?_, ?_⟩
  · simp only [parseUserAgent]
    split_ifs <;> simp
  · intro h1
    simp [parseUserAgent, h1]
  · intro h1 h2
    simp [parseUserAgent, h1, h2]
  · intro h1 h2
    simp [parseUserAgent, h1, h2]
  · intro h1
    simp [parseUserAgent, h1]
  · intro h1 h2
    simp [parseUserAgent, h1, h2]
  · intro h1 h2 h3
    simp [parseUserAgent, h1, h2, h3]
  · intro h1 h2 h3 h4
    simp [parseUserAgent, h1, h2, h3, h4]
  · intro h1 h2 h3 h4 h5
    have hc : containsChars "chrome".data (lowerData ua) = false := by
      cases hcc : containsChars "chrome".data (lowerData ua) <;> simp_all
    have hsa : containsChars "safari".data (lowerData ua) = false := by
      cases hss : containsChars "safari".data (lowerData ua) <;> simp_all
    simp [parseUserAgent, h1, h2, h3, h4, h5, hc, hsa]
  · intro h1 h2 h3 h4 h5
    have hc : containsChars "chrome".data (lowerData ua) = false := by
      cases hcc : containsChars "chrome".data (lowerData ua) <;> simp_all
    have hsa : containsChars "safari".data (lowerData ua) = false := by
      cases hss : containsChars "safari".data (lowerData ua) <;> simp_all
    simp [parseUserAgent, h1, h2, h3, h4, h5, hc, hsa]
  · intro h1 h2 h3 h4 h5
    simp [parseUserAgent, h1, h2, h3, h4, h5]

/-- C9, instantiated: "an iphone chrome" classifies as a mobile device with
the Chrome browser via the claimed precedence chain. -/
theorem parseUserAgent_C9_witness :
    containsChars "ipad".data (lowerData "an iphone chrome") = false ∧
    (parseUserAgent "an iphone chrome").deviceType = "mobile" ∧
    (parseUserAgent "an iphone chrome").browser = "Chrome" :=
  ⟨by decide,
   (parseUserAgent_C9 "an iphone chrome").2.2.1 (by decide) (by decide),
   (parseUserAgent_C9 "an iphone chrome").2.2.2.2.1 (by decide)⟩

/-- C8: `top_countries` has at most 10 entries, is sorted descending by
distinct-user count, every entry is a non-null country of some matching
session carrying that country's distinct-user and session counts, while
`total_sessions` and `total_users` still count all matching sessions,
null-country ones included. -/
theorem summary_top_countries_C8 (db : DB) (f : AnalyticsFilters) :
    (getAnalyticsSummary db f).top_countries.length ≤ 10 ∧
    List.Pairwise usersGE (getAnalyticsSummary db f).top_countries ∧
    (∀ e ∈ (getAnalyticsSummary db f).top_countries,
      (∃ s ∈ matchingSessions db f, s.country = some e.country) ∧
      e.users = countDistinct (((matchingSessions db f).filter
        (fun s => s.country == some e.country)).map (fun s => s.user_id)) ∧
      e.sessions = ((matchingSessions db f).filter
        (fun s => s.country == some e.country)).length) ∧
    (getAnalyticsSummary db f).total_sessions = (matchingSessions db f).length ∧
    (getAnalyticsSummary db f).total_users =
      countDistinct ((matchingSessions db f).map (fun s => s.user_id)) := by
  have htc : (getAnalyticsSummary db f).top_countries =
      (((countryKeys db f).map (countryGroup db f)).insertionSort usersGE).take 10 := rfl
  refine ⟨?_, ?_, ?_, rfl, rfl⟩
  · rw [htc, List.length_take]
    exact min_le_left _ _
  · rw [htc]
    exact List.Pairwise.sublist (List.take_sublist _ _) (List.sorted_insertionSort usersGE _)
  · intro e he
    rw [htc] at he
    have he1 : e ∈ ((countryKeys db f).map (countryGroup db f)).insertionSort usersGE :=
      List.mem_of_mem_take he
    rw [List.mem_insertionSort] at he1
    obtain ⟨c, hc, rfl⟩ := List.mem_map.mp he1
    refine ⟨?_, rfl, rfl⟩
    unfold countryKeys at hc
    rw [List.mem_dedup] at hc
    obtain ⟨s, hs, hsc⟩ := List.mem_filterMap.mp hc
    exact ⟨s, hs, by simpa [countryGroup] using hsc⟩

/-- C8, instantiated on the one-session sample database: the single entry
is country "US" with one distinct user and one session. -/
theorem summary_top_countries_C8_witness :
    (⟨"US", 1, 1⟩ : CountryEntry) ∈ (getAnalyticsSummary dbW fW).top_countries ∧
    ((∃ s ∈ matchingSessions dbW fW,
        s.country = some (⟨"US", 1, 1⟩ : CountryEntry).country) ∧
      (⟨"US", 1, 1⟩ : CountryEntry).users = countDistinct (((matchingSessions dbW fW).filter
        (fun s => s.country == some (⟨"US", 1, 1⟩ : CountryEntry).country)).map
          (fun s => s.user_id)) ∧
      (⟨"US", 1, 1⟩ : CountryEntry).sessions = ((matchingSessions dbW fW).filter
        (fun s => s.country == some (⟨"US", 1, 1⟩ : CountryEntry).country)).length) :=
  ⟨by decide,
   (summary_top_countries_C8 dbW fW).2.2.1 ⟨"US", 1, 1⟩ (by decide)⟩

/-- Sum of an indicator over a list counts the filtered elements. -/
theorem sum_map_ite_one {α : Type} (l : List α) (q : α → Bool) :
    (l.map (fun a => if q a then 1 else 0)).sum = (l.filter q).length := by
  induction l with
  | nil => rfl
  | cons a t ih =>
    by_cases h : q a <;> simp [List.filter_cons, h, ih, Nat.add_comm]

/-- Sums distribute over pointwise addition. -/
theorem sum_map_add_nat {α : Type} (l : List α) (f g : α → Nat) :
    (l.map (fun a => f a + g a)).sum = (l.map f).sum + (l.map g).sum := by
  induction l with
  | nil => rfl
  | cons a t ih =>
    simp only [List.map_cons, List.sum_cons, ih]
    omega

/-- A sum of ones is a length. -/
theorem sum_map_all_one {α : Type} (l : List α) (g : α → Nat) (h : ∀ x ∈ l, g x = 1) :
    (l.map g).sum = l.length := by
  induction l with
  | nil => rfl
  | cons a t ih =>
    simp only [List.map_cons, List.sum_cons, List.length_cons,
      h a (List.mem_cons_self a t), ih (fun x hx => h x (List.mem_cons_of_mem a hx))]
    omega

/-- Counting join rows whose condition depends only on the session key of
the page view equals summing, over the sessions satisfying the condition,
the number of page views that join to each. -/
theorem length_filter_flatMap_pairs (pvs : List PageView) (ms : List Session)
    (P : String → Bool) :
    ((pvs.flatMap (fun pv => (ms.filter (fun s => pv.session_id == s.id)).map
        (fun s => (pv, s)))).filter (fun r => P r.1.session_id)).length
    = ((ms.filter (fun s => P s.id)).map
        (fun s => (pvs.filter (fun pv => pv.session_id == s.id)).length)).sum := by
  induction pvs with
  | nil => simp
  | cons pv pvs ih =>
    rw [List.flatMap_cons, List.filter_append, List.length_append, ih]
    have hA : (((ms.filter (fun s => pv.session_id == s.id)).map (fun s => (pv, s))).filter
        (fun r => P r.1.session_id)).length =
        if P pv.session_id then (ms.filter (fun s => pv.session_id == s.id)).length else 0 := by
      rw [List.filter_map]
      by_cases hP : P pv.session_id
      · simp [hP, Function.comp_def]
      · simp [hP, Function.comp_def]
    rw [hA]
    have hmap : (ms.filter (fun s => P s.id)).map
        (fun s => ((pv :: pvs).filter (fun q => q.session_id == s.id)).length) =
        (ms.filter (fun s => P s.id)).map
        (fun s => (if pv.session_id == s.id then 1 else 0) +
          (pvs.filter (fun q => q.session_id == s.id)).length) := by
      apply List.map_congr_left
      intro s _
      by_cases h : pv.session_id == s.id <;> simp [List.filter_cons, h, Nat.add_comm]
    rw [hmap, sum_map_add_nat, sum_map_ite_one, List.filter_filter]
    have hfil : (ms.filter (fun s => (pv.session_id == s.id) && P s.id)).length =
        if P pv.session_id then (ms.filter (fun s => pv.session_id == s.id)).length else 0 := by
      by_cases hP : P pv.session_id
      · rw [if_pos hP]
        congr 1
        apply List.filter_congr
        intro s _
        by_cases h : pv.session_id == s.id
        · have hid : pv.session_id = s.id := by simpa using h
          simp [h, ← hid, hP]
        · simp [h]
      · rw [if_neg hP]
        have hnil : ms.filter (fun s => (pv.session_id == s.id) && P s.id) = [] := by
          rw [List.filter_eq_nil_iff]
          intro s _
          by_cases h : pv.session_id == s.id
          · have hid : pv.session_id = s.id := by simpa using h
            simp [h, ← hid, hP]
          · simp [h]
        rw [hnil]
        rfl
    rw [hfil]

/-- The join of the page-view metrics query, with the session-side
conditions folded into a pre-filtered session list. -/
theorem pvJoinRows_eq (db : DB) (f : AnalyticsFilters) :
    pvJoinRows db f = db.page_views.flatMap (fun pv =>
      ((matchingSessions db f).filter (fun s => pv.session_id == s.id)).map
        (fun s => (pv, s))) := by
  have hfn : (fun pv : PageView => (db.sessions.filter
        (fun s => pv.session_id == s.id && sessionMatches f s)).map (fun s => (pv, s))) =
      (fun pv : PageView => ((db.sessions.filter (sessionMatches f)).filter
        (fun s => pv.session_id == s.id)).map (fun s => (pv, s))) := by
    funext pv
    rw [List.filter_filter]
  unfold pvJoinRows matchingSessions
  rw [hfn]

/-- The CASE-row count of the bounce query equals the number of matching
sessions with exactly one page view. -/
theorem bounceRowCount_eq_spec (db : DB) (f : AnalyticsFilters) :
    bounceRowCount db f = spec_bounce_sessions db f := by
  unfold bounceRowCount spec_bounce_sessions
  rw [pvJoinRows_eq]
  rw [length_filter_flatMap_pairs db.page_views (matchingSessions db f)
    (fun sid => sessionPageCount db sid == 1)]
  apply sum_map_all_one
  intro s hs
  have h1 : sessionPageCount db s.id = 1 := by
    simpa using (List.mem_filter.mp hs).2
  simpa [sessionPageCount] using h1

/-- C5: the bounce rate is (matching sessions with exactly one page view,
counted over the full page-view table) / total_sessions × 100, lies in
[0, 100], and is 0 when there are no matching sessions. -/
theorem summary_bounce_rate_C5 (db : DB) (f : AnalyticsFilters) :
    0 ≤ (getAnalyticsSummary db f).bounce_rate ∧
    (getAnalyticsSummary db f).bounce_rate ≤ 100 ∧
    ((getAnalyticsSummary db f).total_sessions = 0 →
      (getAnalyticsSummary db f).bounce_rate = 0) ∧
    (0 < (getAnalyticsSummary db f).total_sessions →
      (getAnalyticsSummary db f).bounce_rate =
        ((spec_bounce_sessions db f : Rat) /
          ((getAnalyticsSummary db f).total_sessions : Rat)) * 100) := by
  have hts : (getAnalyticsSummary db f).total_sessions = (matchingSessions db f).length := rfl
  have hbr : (getAnalyticsSummary db f).bounce_rate =
      if 0 < (matchingSessions db f).length
      then ((bounceRowCount db f : Rat) / ((matchingSessions db f).length : Rat)) * 100
      else 0 := rfl
  rw [bounceRowCount_eq_spec] at hbr
  have hle : spec_bounce_sessions db f ≤ (matchingSessions db f).length :=
    List.length_filter_le _ _
  by_cases h : 0 < (matchingSessions db f).length
  · rw [hbr, if_pos h]
    have hpos : (0 : Rat) < ((matchingSessions db f).length : Rat) := by exact_mod_cast h
    have hb1 : (spec_bounce_sessions db f : Rat) / ((matchingSessions db f).length : Rat) ≤ 1 := by
      rw [div_le_one hpos]
      exact_mod_cast hle
    refine ⟨?_, ?_, ?_, ?_⟩
    · exact mul_nonneg (div_nonneg (by positivity) hpos.le) (by norm_num)
    · calc (spec_bounce_sessions db f : Rat) / ((matchingSessions db f).length : Rat) * 100
          ≤ 1 * 100 := by
            exact mul_le_mul_of_nonneg_right hb1 (by norm_num)
        _ = 100 := one_mul 100
    · intro h0
      rw [hts] at h0
      omega
    · intro _
      rw [hts]
  · rw [hbr, if_neg h]
    refine ⟨le_refl 0, by norm_num, fun _ => rfl, ?_⟩
    intro hpos
    rw [hts] at hpos
    exact absurd hpos h

/-- C5, instantiated on the one-session sample database (one session with
one page view, so the bounce rate is the 1/1 × 100 quotient). -/
theorem summary_bounce_rate_C5_witness :
    0 < (getAnalyticsSummary dbW fW).total_sessions ∧
    (getAnalyticsSummary dbW fW).bounce_rate =
      ((spec_bounce_sessions dbW fW : Rat) /
        ((getAnalyticsSummary dbW fW).total_sessions : Rat)) * 100 :=
  ⟨by decide, (summary_bounce_rate_C5 dbW fW).2.2.2 (by decide)⟩

/-- Under distinct session ids, the sessions matching a given key collapse
to at most one hit: mapping a constant over that filter yields a singleton
or nothing, according to `any`. -/
theorem filter_key_map_const {β : Type} (ms : List Session)
    (h : (ms.map (fun s => s.id)).Nodup) (x : String) (b : β) :
    (ms.filter (fun s => x == s.id)).map (fun _ => b) =
      if ms.any (fun s => s.id == x) then [b] else [] := by
  induction ms with
  | nil => rfl
  | cons s t ih =>
    rw [List.map_cons, List.nodup_cons] at h
    obtain ⟨hs, ht⟩ := h
    rw [List.filter_cons, List.any_cons]
    by_cases hx : x == s.id
    · have hxx : x = s.id := by simpa using hx
      have hsx : (s.id == x) = true := by simp [hxx]
      have hnone : t.filter (fun u => x == u.id) = [] := by
        rw [List.filter_eq_nil_iff]
        intro u hu
        simp only [beq_iff_eq]
        intro he
        exact hs (List.mem_map.mpr ⟨u, hu, by rw [← he, ← hxx]⟩)
      simp [hx, hsx, hnone]
    · have hx' : x ≠ s.id := by simpa using hx
      have hsx : (s.id == x) = false := by
        rw [beq_eq_false_iff_ne]
        exact fun he => hx' he.symm
      simp [hx, hsx, ih ht]

/-- Under distinct session ids, projecting the join rows to their page-view
component gives exactly the page views that have a matching session. -/
theorem flatMap_fiber_eq_filter (pvs : List PageView) (ms : List Session)
    (h : (ms.map (fun s => s.id)).Nodup) :
    pvs.flatMap (fun pv => ((ms.filter (fun s => pv.session_id == s.id)).map
        (fun s => (pv, s))).map (fun r => r.1)) =
    pvs.filter (fun pv => ms.any (fun s => s.id == pv.session_id)) := by
  induction pvs with
  | nil => rfl
  | cons pv pvs ih =>
    rw [List.flatMap_cons, ih, List.filter_cons]
    have hh : ((ms.filter (fun s => pv.session_id == s.id)).map (fun s => (pv, s))).map
        (fun r => r.1) = if ms.any (fun s => s.id == pv.session_id) then [pv] else [] := by
      rw [List.map_map]
      exact filter_key_map_const ms h pv.session_id pv
    rw [hh]
    by_cases hany : ms.any (fun s => s.id == pv.session_id) <;> simp [hany]

/-- Under distinct session ids the page-view components of the join are the
page views of matching sessions. -/
theorem pvJoinRows_map_fst (db : DB) (f : AnalyticsFilters)
    (h : (db.sessions.map (fun s => s.id)).Nodup) :
    (pvJoinRows db f).map (fun r => r.1) = pagesOfMatchingSessions db f := by
  have hms : ((matchingSessions db f).map (fun s => s.id)).Nodup :=
    h.sublist (List.Sublist.map _ (List.filter_sublist _))
  rw [pvJoinRows_eq]
  unfold pagesOfMatchingSessions
  rw [List.map_flatMap]
  exact flatMap_fiber_eq_filter db.page_views (matchingSessions db f) hms

/-- The non-NULL time-spent values of the join are those of the page views
of matching sessions. -/
theorem joinTimeSpentValues_eq (db : DB) (f : AnalyticsFilters)
    (h : (db.sessions.map (fun s => s.id)).Nodup) :
    joinTimeSpentValues db f = spec_time_spent_values db f := by
  unfold joinTimeSpentValues spec_time_spent_values
  rw [← pvJoinRows_map_fst db f h, List.filterMap_map]
  rfl

/-- C7: the reported `average_session_duration` is the mean of the
`time_spent` values over the page views of matching sessions (a
page-view-level average; open views carry no value), and is 0 when there
are no such page views. -/
theorem summary_avg_duration_C7 (db : DB) (f : AnalyticsFilters)
    (h : (db.sessions.map (fun s => s.id)).Nodup) :
    ((getAnalyticsSummary db f).average_session_duration =
      if (spec_time_spent_values db f).isEmpty then 0
      else (((spec_time_spent_values db f).sum : Int) : Rat) /
        ((spec_time_spent_values db f).length : Rat)) ∧
    (pagesOfMatchingSessions db f = [] →
      (getAnalyticsSummary db f).average_session_duration = 0) := by
  have havg : (getAnalyticsSummary db f).average_session_duration =
      match (if (joinTimeSpentValues db f).isEmpty then none
        else some ((((joinTimeSpentValues db f).sum : Int) : Rat) /
          ((joinTimeSpentValues db f).length : Rat))) with
      | some v => v
      | none => 0 := rfl
  rw [joinTimeSpentValues_eq db f h] at havg
  constructor
  · rw [havg]
    by_cases he : (spec_time_spent_values db f).isEmpty <;> simp [he]
  · intro hnil
    have hv : spec_time_spent_values db f = [] := by
      unfold spec_time_spent_values
      rw [hnil]
      rfl
    rw [havg, hv]
    simp

/-- C7, instantiated on the one-session sample database (page view still
open, so there are no time-spent values and the reported mean is 0). -/
theorem summary_avg_duration_C7_witness :
    (dbW.sessions.map (fun s => s.id)).Nodup ∧
    ((getAnalyticsSummary dbW fW).average_session_duration =
      if (spec_time_spent_values dbW fW).isEmpty then 0
      else (((spec_time_spent_values dbW fW).sum : Int) : Rat) /
        ((spec_time_spent_values dbW fW).length : Rat)) :=
  ⟨by decide, (summary_avg_duration_C7 dbW fW (by decide)).1⟩
